import Mathlib

/-!
Verification development for the splitflap HTTP task
(`src/arduino/splitflap/esp32/splitflap/http_task.cpp`).

The file shallowly embeds the scheduling loop `HTTPTask::run`, the weather
summarizer `HTTPTask::handleData` and the quote summarizer
`HTTPTask::addStockPriceToMessages`.  C `uint32_t` millisecond arithmetic is
modelled as `Nat` with explicit reduction modulo `2^32`; C `double` values are
modelled as exact rationals `ℚ`; the json11 facade is modelled by the sum type
`JVal`.  External collaborators (HTTP, WiFi, OTA, the display driver) appear
as per-tick inputs (`Env`) and emitted effects (`Eff`).
-/

namespace Splitflap

/-! ### 32-bit unsigned arithmetic -/

/-- `2^32`, the modulus of the C `uint32_t`/32-bit `long` arithmetic used for
millisecond timestamps on the ESP32. -/
def M32 : Nat := 4294967296

/-- Reduction of a natural number to its `uint32_t` value. -/
def u32 (n : Nat) : Nat := n % M32

/-- Unsigned 32-bit subtraction `a - b`, as the C expression
`(uint32_t)a - (uint32_t)b` computes it. -/
def sub32 (a b : Nat) : Nat := (u32 a + (M32 - u32 b)) % M32

/-! ### json11 facade

`http_task.cpp` consumes json11 through `operator[]`, `is_object`, `is_array`,
`is_number`, `is_string`, `number_value` and `string_value`.  json11's
`operator[]` yields a static `null` when the receiver is not an object or the
key is absent. -/

inductive JVal where
  | null
  | bool (b : Bool)
  | num (q : ℚ)
  | str (s : String)
  | arr (items : List JVal)
  | obj (fields : List (String × JVal))

/-- `json[key]` of json11: field lookup on objects, `null` otherwise. -/
def JVal.lookup : JVal → String → JVal
  | .obj fs, k => (((fs.find? (fun p => p.1 == k)).map Prod.snd)).getD .null
  | _, _ => .null

def JVal.isObj : JVal → Bool
  | .obj _ => true
  | _ => false

def JVal.isNum : JVal → Bool
  | .num _ => true
  | _ => false

/-! ### Weather summarizer (`HTTPTask::handleData`, lines 103-231) -/

/-- Lines 156-191: the body of the station loop.  Note the source pushes the
temperature *before* performing the wind-speed checks, so a station whose
`air_temp_value_1.value` is a number but whose `wind_speed_value_1` is missing
or mis-typed contributes to `temps` and not to `wind_speeds`.  (The source
iterates with a `uint8_t` index; this embedding covers arrays of fewer than
256 stations, which includes every input used below.) -/
def collectStation (acc : List ℚ × List ℚ) (item : JVal) : List ℚ × List ℚ :=
  if !item.isObj then acc
  else
    let observations := item.lookup "OBSERVATIONS"
    if !observations.isObj then acc
    else
      let air_temp_value := observations.lookup "air_temp_value_1"
      if !air_temp_value.isObj then acc
      else
        match air_temp_value.lookup "value" with
        | .num t =>
          let acc1 : List ℚ × List ℚ := (acc.1 ++ [t], acc.2)
          let wind_speed_value := observations.lookup "wind_speed_value_1"
          if !wind_speed_value.isObj then acc1
          else
            match wind_speed_value.lookup "value" with
            | .num w => (acc1.1, acc1.2 ++ [w])
            | _ => acc1
        | _ => acc

/-- The `temps`/`wind_speeds` vectors accumulated over the station array. -/
def collectAll (items : List JVal) : List ℚ × List ℚ :=
  items.foldl collectStation ([], [])

/-- The C cast `(int)x` on a `double`: truncation toward zero. -/
def truncQ (q : ℚ) : ℤ := if 0 ≤ q then ⌊q⌋ else ⌈q⌉

/-- `snprintf(buf, _, "%d f", (int)median_temp)` (line 219). -/
def tempMsg (median_temp : ℚ) : String := toString (truncQ median_temp) ++ " f"

/-- `snprintf(buf, _, "%dmph", (int)(median_wind_speed * 1.151))` (line 222);
the `double` literal `1.151` is modelled as the exact rational. -/
def windMsg (median_wind_speed : ℚ) : String :=
  toString (truncQ (median_wind_speed * (1151 / 1000))) ++ "mph"

/-- Lines 199-223 after collection: `std::sort` both vectors, take medians
indexed by `entries = temps.size()`, format the two display strings.
`std::sort` ascending is modelled by `List.mergeSort`; for the total
antisymmetric order on `ℚ` every sorting algorithm returns the same list.
Vector indexing `v[i]` is `std::vector::operator[]`, which performs no bounds
check; an out-of-range index is undefined behaviour, modelled as `none`. -/
def weatherStringsOf (temps wind_speeds : List ℚ) : Option (String × String) :=
  let entries := temps.length
  let ts := temps.mergeSort
  let ws := wind_speeds.mergeSort
  if entries % 2 == 0 then
    match ts[entries / 2 - 1]?, ts[entries / 2]?, ws[entries / 2 - 1]?, ws[entries / 2]? with
    | some a, some b, some c, some d => some (tempMsg ((a + b) / 2), windMsg ((c + d) / 2))
    | _, _, _, _ => none
  else
    match ts[entries / 2]?, ws[entries / 2]? with
    | some a, some c => some (tempMsg a, windMsg c)
    | _, _ => none

/-- Modelled from the spec: `messages_` is declared in `http_task.h`, which is
not under `src/`; per the interface used in the source (`push`, `front`,
`pop`, `size`, `empty`) and the spec's design note that the queue-emptying
call at refresh time "is in fact a no-op accessor", `messages_` is a
`std::queue`-style FIFO and `messages_.empty()` (line 217) is the `const`
emptiness accessor, which does not modify the queue. -/
def queueEmptyAccessor (q : List String) : Bool × List String := (q.isEmpty, q)

/-- `HTTPTask::handleData` (lines 103-231), acting on the queue.  Returns
`some (returnValue, newQueue)`, or `none` when the median computation reads a
vector out of bounds (undefined behaviour in the source).  The status-line
`setMessage(0, "Data: ...")` call and the logger calls are display/log-only
and are not part of the queue-level result. -/
def handleData (j : JVal) (q : List String) : Option (Bool × List String) :=
  match j.lookup "STATION" with
  | .arr items =>
    let tw := collectAll items
    if tw.1.length = 0 then some (false, q)
    else
      match weatherStringsOf tw.1 tw.2 with
      | none => none
      | some (s1, s2) => some (true, (queueEmptyAccessor q).2 ++ [s1, s2])
  | _ => some (false, q)

/-! ### Quote summarizer (`HTTPTask::addStockPriceToMessages`, lines 233-293) -/

/-- `String::toLowerCase` (line 237). -/
def lowerStr (s : String) : String := String.mk (s.data.map Char.toLower)

def digitsToNat (ds : List Char) : Nat :=
  ds.foldl (fun a c => a * 10 + (c.toNat - 48)) 0

/-- Modelled: Arduino `String::toFloat` is an external library routine; it
parses a leading optional sign, integer digits and an optional fraction, and
returns `0` when no leading number is present. -/
def toFloatQ (s : String) : ℚ :=
  let cs := s.data
  let sgn : ℚ := if cs.head? = some '-' then -1 else 1
  let cs1 := if cs.head? = some '-' || cs.head? = some '+' then cs.tail else cs
  let ip := cs1.takeWhile Char.isDigit
  let rest := cs1.dropWhile Char.isDigit
  let fp := if rest.head? = some '.' then rest.tail.takeWhile Char.isDigit else []
  sgn * ((digitsToNat ip : ℚ) + (digitsToNat fp : ℚ) / 10 ^ fp.length)

/-- Modelled: `dtostrf(p, width, prec, buf)` is an avr-libc routine outside
the repository; it writes `p` rounded to `prec` decimals, right-aligned in a
field of `width` characters. -/
def dtostrfQ (p : ℚ) (width prec : Nat) : String :=
  let scaled : ℤ := ⌊p * (10 : ℚ) ^ prec + 1 / 2⌋
  let mag := scaled.natAbs
  let sign := if scaled < 0 then "-" else ""
  let body :=
    if prec = 0 then sign ++ toString mag
    else
      let fpDigits := toString (mag % 10 ^ prec)
      let fpPad := String.mk (List.replicate (prec - fpDigits.length) '0') ++ fpDigits
      sign ++ toString (mag / 10 ^ prec) ++ "." ++ fpPad
  String.mk (List.replicate (width - body.length) ' ') ++ body

/-- The well-formed price string of a quote body, when present: the body
parses (`some`), `"Global Quote"` is an object and its `"05. price"` is a
string.  `none` captures exactly the parse-failure paths of lines 252-268. -/
def priceStringOf (body : Option JVal) : Option String :=
  match body with
  | none => none
  | some j =>
    let quote := j.lookup "Global Quote"
    if !quote.isObj then none
    else
      match quote.lookup "05. price" with
      | .str s => some s
      | _ => none

/-- `HTTPTask::addStockPriceToMessages` (lines 233-293) acting on the queue.
`httpOk` is `http.GET() > 0`; `body` is the json11 parse of the payload
(`none` = parse error).  Returns `(returnValue, newQueue)`.  Note the
lowercased symbol is pushed (line 238) *before* the GET and all parsing. -/
def addStockPriceToMessages (symbol : String) (httpOk : Bool) (body : Option JVal)
    (q : List String) : Bool × List String :=
  let q := q ++ [lowerStr symbol]
  if httpOk then
    match body with
    | none => (false, q)
    | some j =>
      let quote := j.lookup "Global Quote"
      if !quote.isObj then (false, q)
      else
        match quote.lookup "05. price" with
        | .str s =>
          let priceNum := toFloatQ s.trim
          let strPrice :=
            if priceNum < 100 then dtostrfQ priceNum 5 2
            else if priceNum < 1000 then dtostrfQ priceNum 5 1
            else if priceNum < 100000 then dtostrfQ priceNum 5 0
            else " big "
          (true, q ++ [strPrice])
        | _ => (false, q)
  else (true, q)

/-! ### The scheduler loop (`HTTPTask::run`, lines 379-526) -/

/-- Modelled from the spec: `NUM_MODULES` is compile-time configuration not
under `src/`; the spec (§3) parameterizes by module count N, typically 5, and
every string in the source's schedule table is at most 5 characters. -/
def NUM_MODULES : Nat := 5

/-- Lines 472-473: `strlcpy` into `buf` then `memset` the remainder with
spaces; `showString(buf, NUM_MODULES, false)` consumes the first
`NUM_MODULES` characters, i.e. the message right-padded (or truncated) to
`NUM_MODULES`. -/
def padTrunc (n : Nat) (s : String) : String :=
  String.mk (s.data.take n ++ List.replicate (n - s.length) ' ')

/-- Two-digit zero-padded field of `strftime` (`%H`, `%M`). -/
def two (n : Nat) : String := (if n < 10 then "0" else "") ++ toString n

/-- Line 481: `strftime(curTime, _, "t%H%M", localtime(&tNow))`. -/
def clockString (h m : Nat) : String := "t" ++ two h ++ two m

/-- Line 488 is `curTime != m_lastSeenTime.c_str()`: it compares the address
of the stack array `curTime` with the address of the character buffer owned
by `m_lastSeenTime`.  These are distinct objects, so the comparison is always
true; the string contents are never compared. -/
def curTimeBufferNeverAliasesLastSeen : Bool := true

/-- WiFi status as read by the status-line switch (lines 499-521); the
`connected` payload carries the composed `ssid ++ " " ++ ip` string. -/
inductive WStatus where
  | idle
  | noSSID
  | connected (ssidIp : String)
  | connectFailed
  | connectionLost
  | disconnected
  | unknown
deriving DecidableEq

def wifiStatusLine : WStatus → String
  | .idle => "Idle"
  | .noSSID => "No SSID"
  | .connected s => s
  | .connectFailed => "Connection failed"
  | .connectionLost => "Connection lost"
  | .disconnected => "Disconnected"
  | .unknown => "Unknown"

/-- Externally visible actions of one loop iteration. -/
inductive Eff where
  | showString (s : String)
  | disableAll
  | resetAll
  | reconnect
  | setMessage (line : Nat) (s : String)
  | delayMs (ms : Nat)
deriving DecidableEq

/-- Inputs one loop iteration reads from the outside world.  `now` is the
`millis()` read at line 389 and `now2` the re-read at line 477 (both are the
true monotonic count; every use in the loop reduces them mod `2^32`).
`hour`/`minute` are `localtime`'s `tm_hour`/`tm_min`; `minuteId` abstractly
identifies the civil minute the tick falls in (two ticks of the same
wall-clock minute share it).  `wifiConn1`/`wifiConn2` are the
`WiFi.status() == WL_CONNECTED` reads at lines 419 and 424; the
`amzn`/`voo` fields are the HTTP outcomes of the two
`addStockPriceToMessages` calls at lines 429-430. -/
structure Env where
  now : Nat
  now2 : Nat
  hour : Nat
  minute : Nat
  minuteId : Nat
  wifiConn1 : Bool
  wifiConn2 : Bool
  wifiStatus : WStatus
  amznHttpOk : Bool
  amznBody : Option JVal
  vooHttpOk : Bool
  vooBody : Option JVal

/-- The mutable state the loop carries across iterations: the message FIFO,
the member `last_message_change_time_`, the local
`intraMinuteDuplicationProtection` (line 384) and the member
`m_lastSeenTime`.  Modelled from the spec where the member declarations live
in the missing `http_task.h`: per §3/§5 the timestamps are unsigned 32-bit
monotonic milliseconds and `m_lastSeenTime` (the spec's `last_shown_clock`)
is a string. -/
structure HState where
  messages : List String
  last_message_change_time_ : Nat
  intraMinuteDuplicationProtection : Nat
  m_lastSeenTime : String
deriving DecidableEq

/-- Line 407: `now - intraMinuteDuplicationProtection > 60000`, computed in
unsigned 32-bit arithmetic. -/
def schedGate (now intra : Nat) : Bool := sub32 now intra > 60000

/-- Line 464: `now - last_message_change_time_ > MESSAGE_CYCLE_INTERVAL_MILLIS`,
computed in unsigned 32-bit arithmetic. -/
def popGate (now last : Nat) : Bool := sub32 now last > 5000

/-- Line 479: `now > last_message_change_time_ + MESSAGE_CYCLE_INTERVAL_MILLIS`.
This is an unsigned *comparison* of `now` against the wrapped sum, not a
subtraction of timestamps. -/
def clockGate (now last : Nat) : Bool := u32 now > (u32 last + 5000) % M32

/-- Result of the scheduled-events block. -/
structure SchedOut where
  st : HState
  effs : List Eff
  fired : Bool

/-- Lines 407-461: the scheduled-event table.  A row "fires" when its pushes
happen and `intraMinuteDuplicationProtection` is set; at 11:35 with WiFi
still down after the reconnect attempt, nothing fires and the timestamp is
not set. -/
def scheduledBlock (e : Env) (st : HState) : SchedOut :=
  if schedGate e.now st.intraMinuteDuplicationProtection then
    if e.hour = 9 ∧ e.minute = 0 then
      ⟨{ st with
           messages := st.messages ++ ["wakey", "wakey", "eggsn", "bakey"]
           intraMinuteDuplicationProtection := u32 e.now }, [.resetAll], true⟩
    else if e.hour = 11 ∧ e.minute = 35 then
      let effs : List Eff := if !e.wifiConn1 then [.reconnect] else []
      if e.wifiConn2 then
        let q1 := (addStockPriceToMessages "AMZN" e.amznHttpOk e.amznBody
          (st.messages ++ ["symbl", "price"])).2
        let q2 := (addStockPriceToMessages "VOO" e.vooHttpOk e.vooBody q1).2
        ⟨{ st with
             messages := q2
             intraMinuteDuplicationProtection := u32 e.now }, effs, true⟩
      else ⟨st, effs, false⟩
    else if e.hour = 12 ∧ e.minute = 0 then
      ⟨{ st with
           messages := st.messages ++ ["it\x27s", "lunch", "time"]
           intraMinuteDuplicationProtection := u32 e.now }, [], true⟩
    else if e.hour = 13 ∧ e.minute = 0 then
      ⟨{ st with
           messages := st.messages ++ ["back", "to", "work"]
           intraMinuteDuplicationProtection := u32 e.now }, [], true⟩
    else if e.hour = 13 ∧ e.minute = 55 then
      ⟨{ st with
           messages := st.messages ++ ["test", "1", "2"]
           intraMinuteDuplicationProtection := u32 e.now }, [], true⟩
    else if e.hour = 17 ∧ e.minute = 0 then
      ⟨{ st with
           messages := st.messages ++ ["nice", "work"]
           intraMinuteDuplicationProtection := u32 e.now }, [], true⟩
    else ⟨st, [], false⟩
  else ⟨st, [], false⟩

/-- Which display branch a tick took. -/
inductive Branch where
  | nightOverride
  | quiet
  | popped (msg : String)
  | clockNight
  | clockShown (s : String)
  | clockIdle
  | noCycle
deriving DecidableEq

/-- Lines 463-496: the display-cycling block.  The pop branch re-reads
`millis()` (line 477, `e.now2`) into `last_message_change_time_`; the clock
branch never writes `last_message_change_time_`, and its change check is the
always-true pointer comparison of line 488. -/
def cycleBlock (e : Env) (st : HState) : HState × List Eff × Branch :=
  match st.messages, popGate e.now st.last_message_change_time_ with
  | m :: rest, true =>
    ({ st with
         messages := rest
         last_message_change_time_ := u32 e.now2 },
      [.showString (padTrunc NUM_MODULES m)], .popped m)
  | _, _ =>
    if clockGate e.now st.last_message_change_time_ then
      let curTime := clockString e.hour e.minute
      if 21 ≤ e.hour ∨ e.hour ≤ 8 then (st, [.showString "night"], .clockNight)
      else if curTimeBufferNeverAliasesLastSeen then
        ({ st with m_lastSeenTime := curTime }, [.showString curTime], .clockShown curTime)
      else (st, [], .clockIdle)
    else (st, [], .noCycle)

/-- Result of one full loop iteration. -/
structure TickOut where
  st : HState
  effs : List Eff
  fired : Bool
  branch : Branch

/-- One iteration of the `while(1)` loop of `HTTPTask::run` (lines 385-525):
the 21:00 night override, the quiet-hours skip (both `continue` before the
scheduled table), then the scheduled block, the cycling block, the WiFi
status line and the 1 s delay. -/
def tickFull (e : Env) (st : HState) : TickOut :=
  if e.hour = 21 ∧ e.minute = 0 then
    ⟨st, [.showString "night", .disableAll, .delayMs 60000], false, .nightOverride⟩
  else if 21 ≤ e.hour ∨ e.hour ≤ 8 then
    ⟨st, [.delayMs 10000], false, .quiet⟩
  else
    let s := scheduledBlock e st
    let c := cycleBlock e s.st
    ⟨c.1, s.effs ++ c.2.1 ++
        [.setMessage 1 ("Wifi: " ++ wifiStatusLine e.wifiStatus), .delayMs 1000],
      s.fired, c.2.2⟩

/-- A trace: the loop run over a list of per-tick inputs, recording each
tick's input and outcome. -/
def runTrace : List Env → HState → List (Env × TickOut)
  | [], _ => []
  | e :: es, st =>
    let o := tickFull e st
    (e, o) :: runTrace es o.st

def isShow : Eff → Bool
  | .showString _ => true
  | _ => false

/-- The `millis()` times (`Env.now`) of the ticks that issued a `showString`. -/
def showTimes (tr : List (Env × TickOut)) : List Nat :=
  tr.filterMap (fun p => if p.2.effs.any isShow then some p.1.now else none)

def isPop : Branch → Bool
  | .popped _ => true
  | _ => false

/-- The times of the ticks whose `showString` came from the pop-and-display
branch (line 475). -/
def popTimes (tr : List (Env × TickOut)) : List Nat :=
  tr.filterMap (fun p => if isPop p.2.branch then some p.1.now else none)

def isClockShown : Branch → Bool
  | .clockShown _ => true
  | _ => false

/-- The times of the ticks whose `showString` came from the idle-clock branch
(line 493). -/
def clockShowTimes (tr : List (Env × TickOut)) : List Nat :=
  tr.filterMap (fun p => if isClockShown p.2.branch then some p.1.now else none)

/-- The `(now, minuteId)` stamps of the ticks at which a scheduled event
fired. -/
def fireStamps (tr : List (Env × TickOut)) : List (Nat × Nat) :=
  tr.filterMap (fun p => if p.2.fired then some (p.1.now, p.1.minuteId) else none)

/-- Well-formed input sequence starting no earlier than `t`: within a tick
`now ≤ now2`, ticks are in monotonic order, and the trace spans less than
`2^32` ms (no wrap of the true monotonic clock), matching the spec's
"wraps only after >49 days" clock contract. -/
def ValidFrom : Nat → List Env → Prop
  | _, [] => True
  | t, e :: es => t ≤ e.now ∧ e.now ≤ e.now2 ∧ e.now2 < M32 ∧ ValidFrom e.now2 es

end Splitflap

namespace Splitflap

/-! ### Arithmetic helpers -/

theorem u32_eq_of_lt {a : Nat} (h : a < M32) : u32 a = a := by
  simp only [u32, M32] at *
  omega

theorem sub32_eq_sub {a b : Nat} (hb : b ≤ a) (ha : a < M32) : sub32 a b = a - b := by
  simp only [sub32, u32, M32] at *
  omega

theorem sub32_shift (a b k : Nat) : sub32 (a + k) (b + k) = sub32 a b := by
  simp only [sub32, u32, M32]
  omega

/-! ### Concrete inputs used by the evaluations below -/

/-- A per-tick input with the given clock readings, WiFi up and no stock
fetch outcomes. -/
def mkEnv (now hour minute minuteId : Nat) : Env :=
  ⟨now, now, hour, minute, minuteId, true, true, .unknown, false, none, false, none⟩

/-- A station whose `air_temp_value_1.value` is the number 69 and which has
no `wind_speed_value_1` at all. -/
def tempOnlyStation : JVal :=
  .obj [("OBSERVATIONS", .obj [("air_temp_value_1", .obj [("value", .num 69)])])]

/-- A body whose station array is the single temperature-only station. -/
def tempOnlyBody : JVal := .obj [("STATION", .arr [tempOnlyStation])]

/-! ### C5 -/

/-- C5: the claim states that a station entry contributes to the temperature
set T iff it contributes to the wind set W, entries missing either field
contributing to neither.  The code pushes the temperature before performing
the wind checks (lines 174-190), so the temperature-only station contributes
`69` to T and nothing to W.  This evaluation exhibits the divergence. -/
theorem collect_unpaired_station :
    collectAll [tempOnlyStation] = ([(69 : ℚ)], ([] : List ℚ)) := by decide

/-! ### C7 -/

unseal List.mergeSort List.merge in
/-- C7: the claim states every vector index used in the median computation is
in bounds and the summarizer never crashes.  On the temperature-only body the
code reaches `entries = temps.size() = 1`, `wind_speeds.size() = 0`, and the
odd branch reads `wind_speeds[0]` out of bounds (line 209) — undefined
behaviour, modelled as `none`. -/
theorem handleData_unbounded_index : handleData tempOnlyBody [] = none := by decide

/-! ### C2 -/

/-- C2: on every tick whose local hour is in [21,23] or [0,8] the state is
unchanged (in particular nothing is pushed and no scheduled event fires) and
the only effects are: at exactly 21:00, `showString` of the (trivially)
padded `"night"` followed by `disableAll` and the 60 s pause; otherwise just
the 10 s pause — no flap motion and no status-line write. -/
theorem quiet_tick_no_motion (e : Env) (st : HState) (h : 21 ≤ e.hour ∨ e.hour ≤ 8) :
    (tickFull e st).st = st ∧ (tickFull e st).fired = false ∧
      (tickFull e st).effs =
        (if e.hour = 21 ∧ e.minute = 0 then
          [Eff.showString (padTrunc NUM_MODULES "night"), Eff.disableAll, Eff.delayMs 60000]
        else [Eff.delayMs 10000]) := by
  unfold tickFull
  by_cases hn : e.hour = 21 ∧ e.minute = 0
  · rw [if_pos hn, if_pos hn]
    exact ⟨rfl, rfl, rfl⟩
  · rw [if_neg hn, if_pos h, if_neg hn]
    exact ⟨rfl, rfl, rfl⟩

/-- Witness for C2 at hour 22. -/
theorem quiet_tick_no_motion_witness :
    (tickFull (mkEnv 5000 22 30 0) ⟨["abc"], 0, 0, ""⟩).st = ⟨["abc"], 0, 0, ""⟩ ∧
      (tickFull (mkEnv 5000 22 30 0) ⟨["abc"], 0, 0, ""⟩).fired = false ∧
      (tickFull (mkEnv 5000 22 30 0) ⟨["abc"], 0, 0, ""⟩).effs =
        (if (mkEnv 5000 22 30 0).hour = 21 ∧ (mkEnv 5000 22 30 0).minute = 0 then
          [Eff.showString (padTrunc NUM_MODULES "night"), Eff.disableAll, Eff.delayMs 60000]
        else [Eff.delayMs 10000]) :=
  quiet_tick_no_motion (mkEnv 5000 22 30 0) ⟨["abc"], 0, 0, ""⟩ (Or.inl (by decide))

end Splitflap


namespace Splitflap

/-! ### C8 -/

/-- C8 counterexample: the claim states that on a parse failure the message
queue is left unchanged (no symbol enqueued).  The code pushes the lowercased
symbol at line 238, *before* the GET and any parsing, so with an empty queue
and an unparseable body the queue afterwards holds `["amzn"]`. -/
theorem addStock_symbol_pushed_before_parse :
    (addStockPriceToMessages "AMZN" true none []).2 = ["amzn"] ∧
      ["amzn"] ≠ ([] : List String) := by decide

/-- Definitional unfolding of `addStockPriceToMessages` on a parsed body. -/
theorem addStock_some_eq (symbol : String) (q : List String) (j : JVal) :
    addStockPriceToMessages symbol true (some j) q =
      (if (!(JVal.lookup j "Global Quote").isObj) = true then (false, q ++ [lowerStr symbol])
      else
        match (JVal.lookup j "Global Quote").lookup "05. price" with
        | JVal.str s =>
          (true, q ++ [lowerStr symbol] ++
            [if toFloatQ s.trim < 100 then dtostrfQ (toFloatQ s.trim) 5 2
              else if toFloatQ s.trim < 1000 then dtostrfQ (toFloatQ s.trim) 5 1
              else if toFloatQ s.trim < 100000 then dtostrfQ (toFloatQ s.trim) 5 0
              else " big "])
        | _ => (false, q ++ [lowerStr symbol])) := rfl

/-- C8 (amended): on a quote invocation whose body fails to parse or lacks a
well-formed `"Global Quote"`/`"05. price"` string, no price string is
enqueued and the function returns `false` (the error is logged, never fatal),
but the lowercased symbol — pushed before the fetch — remains appended to the
queue. -/
theorem addStock_parse_failure_shape (symbol : String) (q : List String)
    (body : Option JVal) (h : priceStringOf body = none) :
    addStockPriceToMessages symbol true body q = (false, q ++ [lowerStr symbol]) := by
  cases body with
  | none => rfl
  | some j =>
    simp only [priceStringOf] at h
    rw [addStock_some_eq]
    split
    · rfl
    next h1 =>
      split
      next s heq =>
        rw [if_neg h1, heq] at h
        exact absurd h (by simp)
      next => rfl

/-- Witness for C8 (amended): body parses but has no `"Global Quote"` object. -/
theorem addStock_parse_failure_shape_witness :
    addStockPriceToMessages "AMZN" true (some (JVal.obj [])) [] =
      (false, [] ++ [lowerStr "AMZN"]) :=
  addStock_parse_failure_shape "AMZN" [] (some (JVal.obj [])) (by decide)

/-! ### C9 -/

/-- State just before a `uint32_t` wrap: the last cycle was 2900 ms ago. -/
def wrapStA : HState := ⟨[], M32 - 3000, M32 - 3000, "xxxxx"⟩

def wrapEnvA : Env := mkEnv (M32 - 100) 14 23 0

/-- The same situation far from the wrap: the last cycle was 2900 ms ago. -/
def wrapStB : HState := ⟨[], 0, 0, "xxxxx"⟩

def wrapEnvB : Env := mkEnv 2900 14 23 0

/-- C9 counterexample: the claim states every elapsed-time test of the loop
is computed as an unsigned subtraction of timestamps, so that a wrap never
stalls or bursts cycling.  The idle-clock test (line 479) is
`now > last_message_change_time_ + MESSAGE_CYCLE_INTERVAL_MILLIS`: here are
two single-tick states with the *same* unsigned delta
`now - last = 2900 ms < 5000 ms`, where the near-wrap one issues a
`showString` (an early fire) and the other does not. -/
theorem clock_gate_differs_at_wrap :
    sub32 wrapEnvA.now wrapStA.last_message_change_time_ =
        sub32 wrapEnvB.now wrapStB.last_message_change_time_ ∧
      (tickFull wrapEnvA wrapStA).effs.any isShow = true ∧
      (tickFull wrapEnvB wrapStB).effs.any isShow = false := by decide

/-- C9 (amended): the scheduled-event debounce (line 407) and the
pop-and-display cycle test (line 464) are unsigned subtractions of
timestamps, invariant under shifting both clock readings — so a wrap of the
`millis()` counter does not change them; the idle-clock test (line 479) is an
unsigned comparison against the wrapped sum `last + 5000` and lacks this
invariance (see the counterexample `clock_gate_differs_at_wrap`). -/
theorem gates_shift_invariant (a b k : Nat) :
    popGate (a + k) (b + k) = popGate a b ∧ schedGate (a + k) (b + k) = schedGate a b := by
  unfold popGate schedGate
  rw [sub32_shift]
  exact ⟨rfl, rfl⟩

/-! ### C3 -/

/-- Scheduler state with an empty queue whose last shown clock string is
already `"t1423"`. -/
def clockSt0 : HState := ⟨[], 0, 0, "t1423"⟩

/-- C3: the claim states the idle-clock string is shown only when it differs,
as a string, from the last shown clock string, hence at most once per civil
minute.  Starting from `m_lastSeenTime = "t1423"` (equal to the current clock
string) and an empty queue, two ticks inside minute 14:23 each issue a
`showString` of the clock: line 488 compares buffer addresses, never string
contents. -/
theorem clock_reshown_same_minute :
    clockSt0.m_lastSeenTime = clockString (mkEnv 6000 14 23 5).hour (mkEnv 6000 14 23 5).minute ∧
      clockShowTimes (runTrace [mkEnv 6000 14 23 5, mkEnv 7000 14 23 5] clockSt0) =
        [6000, 7000] := by decide

/-! ### C1 -/

/-- C1 counterexample: the claim states any two consecutive `showString`
calls of the scheduler are at least `MESSAGE_CYCLE_INTERVAL_MS = 5000` ms
apart, covering both display branches.  At 11:59 the idle clock is shown (a
genuine string change); the 12:00 scheduled row then fills the queue and the
pop branch issues the next `showString` 1000 ms after the clock one, because
the idle-clock branch never advances `last_message_change_time_`. -/
theorem showStrings_1000ms_apart :
    showTimes (runTrace [mkEnv 65000 11 59 10, mkEnv 66000 12 0 11] ⟨[], 0, 0, "t1158"⟩) =
        [65000, 66000] ∧
      66000 - 65000 < 5000 := by decide

/-! ### C10 -/

theorem handleData_default_pair {q q' : List String} {b : Bool}
    (h : (some (false, q) : Option (Bool × List String)) = some (b, q')) :
    (∃ tail, q' = q ++ tail) ∧ (b = true → ∃ s1 s2, q' = q ++ [s1, s2]) ∧
      (b = false → q' = q) := by
  have h1 := Option.some.inj h
  have hb : b = false := (congrArg Prod.fst h1).symm
  have hq : q' = q := (congrArg Prod.snd h1).symm
  subst hb
  exact ⟨⟨[], by simp [hq]⟩, fun ht => Bool.noConfusion ht, fun _ => hq⟩

/-- C10: a weather refresh that succeeds (`handleData` returns `true`) leaves
every pending queue entry in place, in order, and appends exactly the two new
weather strings behind them; the `messages_.empty()` call of line 217 is the
no-op emptiness accessor.  A failed refresh leaves the queue untouched. -/
theorem handleData_appends_two (j : JVal) (q : List String) (b : Bool) (q' : List String)
    (h : handleData j q = some (b, q')) :
    (queueEmptyAccessor q).2 = q ∧ (∃ tail, q' = q ++ tail) ∧
      (b = true → ∃ s1 s2, q' = q ++ [s1, s2]) ∧ (b = false → q' = q) := by
  refine ⟨rfl, ?_⟩
  simp only [handleData] at h
  split at h
  next items heq =>
    by_cases hlen : (collectAll items).1.length = 0
    · rw [if_pos hlen] at h
      exact handleData_default_pair h
    · rw [if_neg hlen] at h
      split at h
      · exact absurd h (by simp)
      next s1 s2 heqw =>
        have h1 := Option.some.inj h
        have hb : b = true := (congrArg Prod.fst h1).symm
        have hq : q' = q ++ [s1, s2] := by
          have h2 := (congrArg Prod.snd h1).symm
          simpa [queueEmptyAccessor] using h2
        subst hb
        exact ⟨⟨[s1, s2], hq⟩, fun _ => ⟨s1, s2, hq⟩, fun hf => Bool.noConfusion hf⟩
  next hne =>
    exact handleData_default_pair h

end Splitflap

namespace Splitflap

/-! ### Structural lemmas about one tick -/

theorem sched_preserves_last (e : Env) (st : HState) :
    (scheduledBlock e st).st.last_message_change_time_ = st.last_message_change_time_ := by
  unfold scheduledBlock
  split_ifs <;> rfl

theorem cycle_last_cases (e : Env) (st : HState) :
    (isPop (cycleBlock e st).2.2 = false ∧
      (cycleBlock e st).1.last_message_change_time_ = st.last_message_change_time_)
    ∨ (isPop (cycleBlock e st).2.2 = true ∧
      (cycleBlock e st).1.last_message_change_time_ = u32 e.now2 ∧
      popGate e.now st.last_message_change_time_ = true) := by
  unfold cycleBlock
  split
  next m rest hg => right; exact ⟨rfl, rfl, hg⟩
  next =>
    split
    · split
      · left; exact ⟨rfl, rfl⟩
      · split
        · left; exact ⟨rfl, rfl⟩
        · left; exact ⟨rfl, rfl⟩
    · left; exact ⟨rfl, rfl⟩

theorem tick_last_cases (e : Env) (st : HState) :
    (isPop (tickFull e st).branch = false ∧
      (tickFull e st).st.last_message_change_time_ = st.last_message_change_time_)
    ∨ (isPop (tickFull e st).branch = true ∧
      (tickFull e st).st.last_message_change_time_ = u32 e.now2 ∧
      popGate e.now st.last_message_change_time_ = true) := by
  unfold tickFull
  split
  · left; exact ⟨rfl, rfl⟩
  · split
    · left; exact ⟨rfl, rfl⟩
    · have hs := sched_preserves_last e st
      have hc := cycle_last_cases e (scheduledBlock e st).st
      rw [hs] at hc
      exact hc

theorem cycle_preserves_intra (e : Env) (st : HState) :
    (cycleBlock e st).1.intraMinuteDuplicationProtection =
      st.intraMinuteDuplicationProtection := by
  unfold cycleBlock
  split
  · rfl
  · split_ifs <;> rfl

theorem sched_fire_cases (e : Env) (st : HState) :
    ((scheduledBlock e st).fired = false ∧
      (scheduledBlock e st).st.intraMinuteDuplicationProtection =
        st.intraMinuteDuplicationProtection)
    ∨ ((scheduledBlock e st).fired = true ∧
      (scheduledBlock e st).st.intraMinuteDuplicationProtection = u32 e.now ∧
      schedGate e.now st.intraMinuteDuplicationProtection = true) := by
  unfold scheduledBlock
  split_ifs <;>
    first
      | (left; exact ⟨rfl, rfl⟩)
      | (right; exact ⟨rfl, rfl, by assumption⟩)

theorem tick_fire_cases (e : Env) (st : HState) :
    ((tickFull e st).fired = false ∧
      (tickFull e st).st.intraMinuteDuplicationProtection =
        st.intraMinuteDuplicationProtection)
    ∨ ((tickFull e st).fired = true ∧
      (tickFull e st).st.intraMinuteDuplicationProtection = u32 e.now ∧
      schedGate e.now st.intraMinuteDuplicationProtection = true) := by
  unfold tickFull
  split
  · left; exact ⟨rfl, rfl⟩
  · split
    · left; exact ⟨rfl, rfl⟩
    · have hc := cycle_preserves_intra e (scheduledBlock e st).st
      rcases sched_fire_cases e st with ⟨h1, h2⟩ | ⟨h1, h2, h3⟩
      · left; exact ⟨h1, hc.trans h2⟩
      · right; exact ⟨h1, hc.trans h2, h3⟩

/-! ### Trace lemmas -/

theorem popTimes_cons_pop {e : Env} {st : HState} (es : List Env)
    (hb : isPop (tickFull e st).branch = true) :
    popTimes (runTrace (e :: es) st) = e.now :: popTimes (runTrace es (tickFull e st).st) := by
  simp [runTrace, popTimes, List.filterMap_cons, hb]

theorem popTimes_cons_nopop {e : Env} {st : HState} (es : List Env)
    (hb : isPop (tickFull e st).branch = false) :
    popTimes (runTrace (e :: es) st) = popTimes (runTrace es (tickFull e st).st) := by
  simp [runTrace, popTimes, List.filterMap_cons, hb]

theorem fireStamps_cons_fired {e : Env} {st : HState} (es : List Env)
    (hb : (tickFull e st).fired = true) :
    fireStamps (runTrace (e :: es) st) =
      (e.now, e.minuteId) :: fireStamps (runTrace es (tickFull e st).st) := by
  simp [runTrace, fireStamps, List.filterMap_cons, hb]

theorem fireStamps_cons_unfired {e : Env} {st : HState} (es : List Env)
    (hb : (tickFull e st).fired = false) :
    fireStamps (runTrace (e :: es) st) = fireStamps (runTrace es (tickFull e st).st) := by
  simp [runTrace, fireStamps, List.filterMap_cons, hb]

theorem popGate_spec {now last : Nat} (h : popGate now last = true)
    (hle : last ≤ now) (hlt : now < M32) : last + 5000 < now := by
  simp only [popGate, decide_eq_true_eq] at h
  rw [sub32_eq_sub hle hlt] at h
  omega

theorem schedGate_spec {now intra : Nat} (h : schedGate now intra = true)
    (hle : intra ≤ now) (hlt : now < M32) : intra + 60000 < now := by
  simp only [schedGate, decide_eq_true_eq] at h
  rw [sub32_eq_sub hle hlt] at h
  omega

/-- Invariant for the pop-branch spacing: along any well-formed input
sequence, successive pop-branch `showString` times are more than 5000 ms
apart, and the first one is more than 5000 ms after the
`last_message_change_time_` the trace started from. -/
theorem popTimes_chain_aux (es : List Env) : ∀ (st : HState) (t : Nat),
    ValidFrom t es → st.last_message_change_time_ ≤ t →
    List.Chain' (fun a b => a + 5000 < b) (popTimes (runTrace es st)) ∧
      ∀ x ∈ (popTimes (runTrace es st)).head?,
        st.last_message_change_time_ + 5000 < x := by
  induction es with
  | nil =>
    intro st t _ _
    exact ⟨List.chain'_nil, by simp [runTrace, popTimes]⟩
  | cons e es ih =>
    intro st t hv hl
    simp only [ValidFrom] at hv
    obtain ⟨ht, hn2, hlt, hv'⟩ := hv
    have hnow : e.now < M32 := lt_of_le_of_lt hn2 hlt
    rcases tick_last_cases e st with ⟨hb, heq⟩ | ⟨hb, heq, hg⟩
    · have hrec := ih (tickFull e st).st e.now2 hv' (by rw [heq]; omega)
      rw [popTimes_cons_nopop es hb]
      refine ⟨hrec.1, fun x hx => ?_⟩
      have := hrec.2 x hx
      rw [heq] at this
      omega
    · have hlast : (tickFull e st).st.last_message_change_time_ = e.now2 := by
        rw [heq, u32_eq_of_lt hlt]
      have hrec := ih (tickFull e st).st e.now2 hv' (by rw [hlast])
      have hgap : st.last_message_change_time_ + 5000 < e.now :=
        popGate_spec hg (le_trans hl ht) hnow
      rw [popTimes_cons_pop es hb]
      constructor
      · refine List.Chain'.cons' hrec.1 (fun y hy => ?_)
        have := hrec.2 y hy
        rw [hlast] at this
        omega
      · intro x hx
        simp only [List.head?_cons, Option.mem_some_iff] at hx
        omega

/-- C1 (amended): any two consecutive `showString` calls issued by the
pop-and-display branch (line 475) are more than
`MESSAGE_CYCLE_INTERVAL_MILLIS = 5000` ms apart: that branch both tests
`now - last_message_change_time_ > 5000` in unsigned arithmetic and advances
the timestamp.  The bound does not extend to the idle-clock branch, which
never advances `last_message_change_time_` (see
`showStrings_1000ms_apart`). -/
theorem pop_showString_spacing (es : List Env) (st : HState) (t : Nat)
    (hv : ValidFrom t es) (hl : st.last_message_change_time_ ≤ t) :
    List.Chain' (fun a b => a + 5000 < b) (popTimes (runTrace es st)) :=
  (popTimes_chain_aux es st t hv hl).1

/-- Witness for C1 (amended): two pops 10 s apart. -/
theorem pop_showString_spacing_witness :
    List.Chain' (fun a b => a + 5000 < b)
      (popTimes (runTrace [mkEnv 70000 10 30 0, mkEnv 80000 10 31 1] ⟨["aaa", "bbb"], 0, 0, ""⟩)) :=
  pop_showString_spacing [mkEnv 70000 10 30 0, mkEnv 80000 10 31 1] ⟨["aaa", "bbb"], 0, 0, ""⟩ 0
    (by simp only [ValidFrom]
        refine ⟨by decide, by decide, by decide, by decide, by decide, by decide, trivial⟩)
    (by decide)

/-- Invariant for the scheduled-event debounce: successive firing times are
more than 60000 ms apart, and the first is more than 60000 ms after the
initial `intraMinuteDuplicationProtection`. -/
theorem fireStamps_chain_aux (es : List Env) : ∀ (st : HState) (t : Nat),
    ValidFrom t es → st.intraMinuteDuplicationProtection ≤ t →
    List.Chain' (fun p q => p.1 + 60000 < q.1) (fireStamps (runTrace es st)) ∧
      ∀ x ∈ (fireStamps (runTrace es st)).head?,
        st.intraMinuteDuplicationProtection + 60000 < x.1 := by
  induction es with
  | nil =>
    intro st t _ _
    exact ⟨List.chain'_nil, by simp [runTrace, fireStamps]⟩
  | cons e es ih =>
    intro st t hv hl
    simp only [ValidFrom] at hv
    obtain ⟨ht, hn2, hlt, hv'⟩ := hv
    have hnow : e.now < M32 := lt_of_le_of_lt hn2 hlt
    rcases tick_fire_cases e st with ⟨hb, heq⟩ | ⟨hb, heq, hg⟩
    · have hrec := ih (tickFull e st).st e.now2 hv' (by rw [heq]; omega)
      rw [fireStamps_cons_unfired es hb]
      refine ⟨hrec.1, fun x hx => ?_⟩
      have := hrec.2 x hx
      rw [heq] at this
      omega
    · have hintra : (tickFull e st).st.intraMinuteDuplicationProtection = e.now := by
        rw [heq, u32_eq_of_lt hnow]
      have hrec := ih (tickFull e st).st e.now2 hv' (by rw [hintra]; omega)
      have hgap : st.intraMinuteDuplicationProtection + 60000 < e.now :=
        schedGate_spec hg (le_trans hl ht) hnow
      rw [fireStamps_cons_fired es hb]
      constructor
      · refine List.Chain'.cons' hrec.1 (fun y hy => ?_)
        have := hrec.2 y hy
        rw [hintra] at this
        omega
      · intro x hx
        simp only [List.head?_cons, Option.mem_some_iff] at hx
        rw [← hx]
        exact hgap

/-- C4: along any well-formed trace, any two scheduled-event firings are more
than 60000 ms of monotonic time apart (pairwise, not just consecutively);
consequently, whenever ticks of one civil minute lie within 60000 ms of each
other, no two firings share a civil minute. -/
theorem scheduled_fire_debounce (es : List Env) (st : HState) (t : Nat)
    (hv : ValidFrom t es) (hi : st.intraMinuteDuplicationProtection ≤ t) :
    (fireStamps (runTrace es st)).Pairwise (fun p q => p.1 + 60000 < q.1) ∧
      ((∀ p ∈ fireStamps (runTrace es st), ∀ q ∈ fireStamps (runTrace es st),
          p.2 = q.2 → q.1 ≤ p.1 + 60000) →
        (fireStamps (runTrace es st)).Pairwise (fun p q => p.2 ≠ q.2)) := by
  have hch := (fireStamps_chain_aux es st t hv hi).1
  haveI : IsTrans (Nat × Nat) (fun p q => p.1 + 60000 < q.1) :=
    ⟨fun a b c h1 h2 => by omega⟩
  have hpw := List.chain'_iff_pairwise.mp hch
  refine ⟨hpw, fun hco => ?_⟩
  refine hpw.imp_of_mem (fun {p q} hp hq hlt => ?_)
  intro hmin
  have := hco p hp q hq hmin
  omega

/-- Witness for C4: a two-tick trace at 12:00 in which only the first tick
fires. -/
theorem scheduled_fire_debounce_witness :
    (fireStamps (runTrace [mkEnv 70000 12 0 7, mkEnv 71000 12 0 7] ⟨[], 0, 0, ""⟩)).Pairwise
        (fun p q => p.1 + 60000 < q.1) ∧
      ((∀ p ∈ fireStamps (runTrace [mkEnv 70000 12 0 7, mkEnv 71000 12 0 7] ⟨[], 0, 0, ""⟩),
          ∀ q ∈ fireStamps (runTrace [mkEnv 70000 12 0 7, mkEnv 71000 12 0 7] ⟨[], 0, 0, ""⟩),
          p.2 = q.2 → q.1 ≤ p.1 + 60000) →
        (fireStamps (runTrace [mkEnv 70000 12 0 7, mkEnv 71000 12 0 7] ⟨[], 0, 0, ""⟩)).Pairwise
          (fun p q => p.2 ≠ q.2)) :=
  scheduled_fire_debounce [mkEnv 70000 12 0 7, mkEnv 71000 12 0 7] ⟨[], 0, 0, ""⟩ 0
    (by simp only [ValidFrom]
        refine ⟨by decide, by decide, by decide, by decide, by decide, by decide, trivial⟩)
    (by decide)

end Splitflap

namespace Splitflap

/-! ### C6 -/

/-- The spec's median rule (§4.2), stated on a sorted arrangement `s` of the
collected set: for even size the arithmetic mean of the two central order
statistics, for odd size the central order statistic. -/
def specMedian (s : List ℚ) : ℚ :=
  if s.length % 2 = 0 then ((s[s.length / 2 - 1]?).getD 0 + (s[s.length / 2]?).getD 0) / 2
  else (s[s.length / 2]?).getD 0

theorem mergeSort_eq_of_sorted_perm {l s : List ℚ}
    (hp : List.Perm s l) (hs : List.Sorted (· ≤ ·) s) :
    List.mergeSort l = s :=
  List.eq_of_perm_of_sorted ((List.mergeSort_perm l _).trans hp.symm)
    (List.sorted_mergeSort' l) hs

/-- C6: on every non-empty list of collected temperature/wind pairs the
weather summary produces exactly the two strings, in order,
`"{trunc(median T)} f"` then `"{trunc(median W * 1.151)}mph"`, where the
median follows the spec's order-statistics rule (`specMedian`, over any
sorted arrangement of the respective set) and rounding is truncation toward
zero (`truncQ`); the `double` literal 1.151 is the exact rational here. -/
theorem weather_summary_median_strings (pairs : List (ℚ × ℚ)) (hne : pairs ≠ [])
    (ts ws : List ℚ)
    (hts : List.Perm ts (pairs.map Prod.fst)) (hsts : List.Sorted (· ≤ ·) ts)
    (hws : List.Perm ws (pairs.map Prod.snd)) (hsws : List.Sorted (· ≤ ·) ws) :
    weatherStringsOf (pairs.map Prod.fst) (pairs.map Prod.snd) =
      some (toString (truncQ (specMedian ts)) ++ " f",
        toString (truncQ (specMedian ws * (1151 / 1000))) ++ "mph") := by
  have hTs : List.mergeSort (pairs.map Prod.fst) = ts := mergeSort_eq_of_sorted_perm hts hsts
  have hWs : List.mergeSort (pairs.map Prod.snd) = ws := mergeSort_eq_of_sorted_perm hws hsws
  have hlen : (pairs.map Prod.fst).length = pairs.length := List.length_map _ _
  have hlenW : (pairs.map Prod.snd).length = pairs.length := List.length_map _ _
  have hlts : ts.length = pairs.length := by rw [hts.length_eq, hlen]
  have hlws : ws.length = pairs.length := by rw [hws.length_eq, hlenW]
  have hn0 : pairs.length ≠ 0 := fun h => hne (List.length_eq_zero.mp h)
  simp only [weatherStringsOf, specMedian, hTs, hWs, hlen, hlts, hlws]
  by_cases hpar : pairs.length % 2 = 0
  · have h2 : 2 ≤ pairs.length := by omega
    have hi1 : pairs.length / 2 - 1 < ts.length := by omega
    have hi2 : pairs.length / 2 < ts.length := by omega
    have hj1 : pairs.length / 2 - 1 < ws.length := by omega
    have hj2 : pairs.length / 2 < ws.length := by omega
    rw [if_pos (beq_iff_eq.mpr hpar), if_pos hpar, if_pos hpar,
      List.getElem?_eq_getElem hi1, List.getElem?_eq_getElem hi2,
      List.getElem?_eq_getElem hj1, List.getElem?_eq_getElem hj2]
    simp only [Option.getD_some, tempMsg, windMsg]
  · have hi : pairs.length / 2 < ts.length := by omega
    have hj : pairs.length / 2 < ws.length := by omega
    rw [if_neg (by simpa using hpar), if_neg hpar, if_neg hpar,
      List.getElem?_eq_getElem hi, List.getElem?_eq_getElem hj]
    simp only [Option.getD_some, tempMsg, windMsg]

/-- Witness for C6 at the three stations of scenario S1 (temperatures
68, 69, 71 °F; winds 0.87, 1.74, 2 knots). -/
theorem weather_summary_median_strings_witness :
    weatherStringsOf
        ([((68 : ℚ), Rat.divInt 87 100), (69, Rat.divInt 174 100), (71, 2)].map Prod.fst)
        ([((68 : ℚ), Rat.divInt 87 100), (69, Rat.divInt 174 100), (71, 2)].map Prod.snd) =
      some (toString (truncQ (specMedian [(68 : ℚ), 69, 71])) ++ " f",
        toString (truncQ (specMedian [Rat.divInt 87 100, Rat.divInt 174 100, (2 : ℚ)] *
          (1151 / 1000))) ++ "mph") :=
  weather_summary_median_strings
    [((68 : ℚ), Rat.divInt 87 100), (69, Rat.divInt 174 100), (71, 2)] (by decide)
    [(68 : ℚ), 69, 71] [Rat.divInt 87 100, Rat.divInt 174 100, (2 : ℚ)]
    (List.Perm.refl _) (by decide) (List.Perm.refl _) (by decide)

end Splitflap

namespace Splitflap

/-- A station with both a numeric `air_temp_value_1.value` and a numeric
`wind_speed_value_1.value`. -/
def stationJ (t w : ℚ) : JVal :=
  .obj [("OBSERVATIONS", .obj
    [("air_temp_value_1", .obj [("value", .num t)]),
      ("wind_speed_value_1", .obj [("value", .num w)])])]

/-- The weather body of scenario S1: three stations. -/
def bodyS1 : JVal :=
  .obj [("STATION", .arr
    [stationJ 68 (Rat.divInt 87 100), stationJ 69 (Rat.divInt 174 100), stationJ 71 2])]

unseal Rat.mul Rat.inv Rat.add List.mergeSort List.merge in
/-- Witness for C10: the S1 body appended behind a pending entry. -/
theorem handleData_appends_two_witness :
    (queueEmptyAccessor ["abc"]).2 = ["abc"] ∧
      (∃ tail, ["abc", "69 f", "2mph"] = ["abc"] ++ tail) ∧
      (true = true → ∃ s1 s2, ["abc", "69 f", "2mph"] = ["abc"] ++ [s1, s2]) ∧
      (true = false → ["abc", "69 f", "2mph"] = ["abc"]) :=
  handleData_appends_two bodyS1 ["abc"] true ["abc", "69 f", "2mph"] (by decide)

end Splitflap
